import Mathlib

/-!
Shallow embedding of the Node.js compliance-rule template
`src/rdk/template/runtime/nodejs4.3/rule_code.js`.

Modelling conventions, used uniformly below:

* A JavaScript field that may be `undefined`/`null` is modelled as an
  `Option`; `checkDefined` rejects exactly the `none` case (mirroring the
  falsiness test `if (!reference)` on the absent value).
* The serialized payloads (`event.invokingEvent`, `event.ruleParameters`,
  and the serialized configuration blob inside a history record) are
  carried in already-parsed form; `JSON.parse`/`JSON.stringify` round
  trips are the identity in the model.
* The two AWS service calls (`config.getResourceConfigHistory` and
  `config.putEvaluations`) are modelled by oracle responses passed in as
  parameters; the observable effects of a run — invocations of the Lambda
  callback and requests handed to `config.putEvaluations` — are
  accumulated in a `Trace`.
* Thrown JavaScript exceptions are modelled by the `Except.error`
  component of `JsM`; since callbacks are invoked synchronously, an
  exception raised inside a callback aborts the code that follows the
  callback invocation, exactly as in the source.
-/

/-- The parsed form of the serialized `configuration` payload of a
configuration item.  Only `instanceType` is read by the bundled example
evaluator. -/
structure Configuration where
  instanceType : Option String
  deriving DecidableEq

/-- One relationship entry of a configuration item.  The history API names
the identifying field `relationshipName`; `convertApiConfiguration` copies
it to `name`. -/
structure Relationship where
  relationshipName : Option String
  name : Option String
  deriving DecidableEq

/-- The canonical configuration item (resource snapshot) used downstream of
`getConfigurationItem`. -/
structure ConfigurationItem where
  resourceType : Option String
  resourceId : Option String
  configurationItemStatus : Option String
  configurationItemCaptureTime : Option String
  configuration : Configuration
  awsAccountId : Option String
  ARN : Option String
  configurationStateMd5Hash : Option String
  configurationItemVersion : Option String
  relationships : Option (List Relationship)
  deriving DecidableEq

/-- A relationship entry as returned by the history API. -/
structure ApiRelationship where
  relationshipName : Option String
  deriving DecidableEq

/-- A configuration item as returned by `getResourceConfigHistory`, before
`convertApiConfiguration` remaps it to the canonical field names.  The
`configuration` field stands for the serialized blob, carried in parsed
form. -/
structure ApiConfigurationItem where
  accountId : Option String
  arn : Option String
  configurationItemMD5Hash : Option String
  version : Option String
  configuration : Configuration
  relationships : Option (List ApiRelationship)
  resourceType : Option String
  resourceId : Option String
  configurationItemStatus : Option String
  configurationItemCaptureTime : Option String
  deriving DecidableEq

/-- The summary embedded in an oversized change notification. -/
structure ConfigurationItemSummary where
  resourceType : Option String
  resourceId : Option String
  configurationItemCaptureTime : Option String
  deriving DecidableEq

/-- The parsed `invokingEvent` payload. -/
structure InvokingEvent where
  messageType : Option String
  configurationItem : Option ConfigurationItem
  configurationItemSummary : Option ConfigurationItemSummary
  deriving DecidableEq

/-- The parsed `ruleParameters` payload. -/
structure RuleParameters where
  desiredInstanceType : Option String
  deriving DecidableEq

/-- The JavaScript value of `event.eventLeftScope`: a boolean, absent, or
some non-boolean value.  The source compares it with strict equality
against the boolean `false`, so the three shapes must stay distinct. -/
inductive LeftScope where
  | boolean (b : Bool)
  | undefinedValue
  | nonBoolean (description : String)
  deriving DecidableEq

/-- The inbound Lambda invocation payload.  `invokingEvent` and
`ruleParameters` are serialized strings in the source, modelled parsed. -/
structure Event where
  invokingEvent : InvokingEvent
  ruleParameters : RuleParameters
  eventLeftScope : LeftScope
  resultToken : String
  deriving DecidableEq

/-- One entry of `putEvaluationsRequest.Evaluations`.  All four fields are
optional because a custom (array-shaped) verdict may omit any of them. -/
structure Evaluation where
  ComplianceResourceType : Option String
  ComplianceResourceId : Option String
  ComplianceType : Option String
  OrderingTimestamp : Option String
  deriving DecidableEq

/-- The request handed to `config.putEvaluations`. -/
structure PutEvaluationsRequest where
  Evaluations : List Evaluation
  ResultToken : String
  deriving DecidableEq

/-- The response of `config.putEvaluations`. -/
structure PutEvaluationsResponse where
  FailedEvaluations : List Evaluation
  deriving DecidableEq

/-- The error values observable in a run: thrown `Error`/`TypeError`
objects, opaque AWS service errors, plain strings used as the error
argument of the callback, and `JSON.stringify(data)` of a response with
per-record failures. -/
inductive JsErr where
  | errorObj (msg : String)
  | svcError (e : String)
  | strMsg (s : String)
  | dataJson (data : PutEvaluationsResponse)
  deriving DecidableEq

/-- One invocation of the Lambda callback: `callback(err)` or
`callback(null, data)`. -/
inductive CallbackOut where
  | failure (e : JsErr)
  | success (data : PutEvaluationsResponse)
  deriving DecidableEq

/-- The observable effects accumulated during a run. -/
structure Trace where
  callbacks : List CallbackOut
  putEvals : List PutEvaluationsRequest
  deriving DecidableEq

/-- The empty trace a run starts from. -/
def emptyTrace : Trace := { callbacks := [], putEvals := [] }

/-- An AWS SDK response oracle: either the service errored or it returned
data. -/
inductive SvcResp (α : Type) where
  | err (e : String)
  | ok (data : α)
  deriving DecidableEq

/-- The data of a successful `getResourceConfigHistory` response. -/
structure ResourceConfigHistoryData where
  configurationItems : List ApiConfigurationItem
  deriving DecidableEq

/-- Effectful JavaScript computations: thread the trace and either return
normally or propagate a thrown exception. -/
def JsM (α : Type) : Type := Trace → Except JsErr α × Trace

/-- Return a value without effects. -/
def pureJs {α : Type} (a : α) : JsM α := fun t => (Except.ok a, t)

/-- Sequence two computations; a thrown exception aborts the rest. -/
def bindJs {α β : Type} (m : JsM α) (k : α → JsM β) : JsM β := fun t =>
  match (m t).1 with
  | Except.ok a => k a (m t).2
  | Except.error e => (Except.error e, (m t).2)

/-- Throw a JavaScript exception. -/
def jsThrow {α : Type} (e : JsErr) : JsM α := fun t => (Except.error e, t)

/-- Lift a pure fallible result (such as `checkDefined`) into `JsM`. -/
def liftEx {α : Type} (r : Except JsErr α) : JsM α := fun t => (r, t)

/-- Record one invocation of the Lambda callback. -/
def invokeCallback (c : CallbackOut) : JsM Unit := fun t =>
  (Except.ok (), { t with callbacks := t.callbacks ++ [c] })

/-- Record one request handed to `config.putEvaluations`. -/
def recordPutEvaluationsCall (r : PutEvaluationsRequest) : JsM Unit := fun t =>
  (Except.ok (), { t with putEvals := t.putEvals ++ [r] })

/-- Lines 33-40 of the source: the bundled example evaluator.  A resource
that is not an EC2 instance is NOT_APPLICABLE; an instance whose
`configuration.instanceType` strictly equals the desired type is
COMPLIANT; anything else is NON_COMPLIANT.  JavaScript strict equality
between two possibly-undefined strings is `Option` equality here. -/
def evaluateCompliance (configurationItem : ConfigurationItem)
    (ruleParameters : RuleParameters) : String :=
  if configurationItem.resourceType ≠ some "AWS::EC2::Instance" then
    "NOT_APPLICABLE"
  else if ruleParameters.desiredInstanceType = configurationItem.configuration.instanceType then
    "COMPLIANT"
  else
    "NON_COMPLIANT"

/-- Lines 55-60 of the source: throw a descriptive error when a required
reference is absent, else hand it back. -/
def checkDefined {α : Type} (reference : Option α) (referenceName : String) :
    Except JsErr α :=
  match reference with
  | none => Except.error (JsErr.errorObj ("Error: " ++ referenceName ++ " is not defined"))
  | some r => Except.ok r

/-- Lines 63-66 of the source. -/
def isOverSizedChangeNotification (messageType : Option String) : Except JsErr Bool :=
  (checkDefined messageType "messageType").map
    (fun mt => decide (mt = "OversizedConfigurationItemChangeNotification"))

/-- Lines 69-72 of the source. -/
def isScheduledNotification (messageType : Option String) : Except JsErr Bool :=
  (checkDefined messageType "messageType").map
    (fun mt => decide (mt = "ScheduledNotification"))

/-- Lines 122-128 of the source: applicable exactly when the status is OK
or ResourceDiscovered and `eventLeftScope` is strictly the boolean false.
The `checkDefined` guards of the source are handled at the call site in
the handler model (an absent item makes the call throw before this body
runs). -/
def isApplicable (configurationItem : ConfigurationItem) (event : Event) : Bool :=
  (decide (configurationItem.configurationItemStatus = some "OK")
      || decide (configurationItem.configurationItemStatus = some "ResourceDiscovered"))
    && decide (event.eventLeftScope = LeftScope.boolean false)

/-- Lines 87-99 of the source: remap a history-API record to the canonical
invocation-model field names; the serialized configuration blob is parsed
(identity in this model) and each relationship gains a `name` field copied
from `relationshipName`. -/
def convertApiConfiguration (apiConfiguration : ApiConfigurationItem) : ConfigurationItem :=
  { resourceType := apiConfiguration.resourceType
    resourceId := apiConfiguration.resourceId
    configurationItemStatus := apiConfiguration.configurationItemStatus
    configurationItemCaptureTime := apiConfiguration.configurationItemCaptureTime
    configuration := apiConfiguration.configuration
    awsAccountId := apiConfiguration.accountId
    ARN := apiConfiguration.arn
    configurationStateMd5Hash := apiConfiguration.configurationItemMD5Hash
    configurationItemVersion := apiConfiguration.version
    relationships :=
      match apiConfiguration.relationships with
      | none => none
      | some rels => some (rels.map (fun rel =>
          { relationshipName := rel.relationshipName, name := rel.relationshipName })) }

/-- Lines 75-83 of the source.  On a service error the inner callback runs
with the error and, because the source lacks a `return` after it, the code
then dereferences the null `data` and throws a TypeError (unless the
callback itself threw first).  On success the first element of
`configurationItems` (or `undefined` when the list is empty) is handed to
the callback. -/
def getConfiguration (historyResp : SvcResp ResourceConfigHistoryData)
    (resourceType : Option String) (resourceId : Option String)
    (configurationCaptureTime : Option String)
    (callback : Option String → Option ApiConfigurationItem → JsM Unit) : JsM Unit :=
  match historyResp with
  | SvcResp.err e =>
      bindJs (callback (some e) none) (fun _ =>
        jsThrow (JsErr.errorObj "TypeError: Cannot read configurationItems of null"))
  | SvcResp.ok data =>
      callback none data.configurationItems.head?

/-- Lines 102-119 of the source.  Dispatch on the message type: oversized
notifications check the summary and fetch the item from the history
service (converting it with `convertApiConfiguration`; an absent record —
empty history — makes that conversion dereference `undefined` and throw a
TypeError, again because the source lacks a `return` after the error
callback); scheduled notifications yield `null`; anything else checks and
returns the embedded `configurationItem`. -/
def getConfigurationItem (historyResp : SvcResp ResourceConfigHistoryData)
    (invokingEvent : Option InvokingEvent)
    (callback : Option JsErr → Option ConfigurationItem → JsM Unit) : JsM Unit :=
  bindJs (liftEx (checkDefined invokingEvent "invokingEvent")) (fun ie =>
  bindJs (liftEx (isOverSizedChangeNotification ie.messageType)) (fun oversized =>
  if oversized then
    bindJs (liftEx (checkDefined ie.configurationItemSummary "configurationItemSummary"))
      (fun summary =>
      getConfiguration historyResp summary.resourceType summary.resourceId
        summary.configurationItemCaptureTime
        (fun err apiConfigurationItem =>
          bindJs (match err with
                  | some e => callback (some (JsErr.svcError e)) none
                  | none => pureJs ()) (fun _ =>
          match apiConfigurationItem with
          | none => jsThrow (JsErr.errorObj "TypeError: Cannot read properties of undefined")
          | some api => callback none (some (convertApiConfiguration api)))))
  else
    bindJs (liftEx (isScheduledNotification ie.messageType)) (fun scheduled =>
    if scheduled then
      callback none none
    else
      bindJs (liftEx (checkDefined ie.configurationItem "configurationItem")) (fun _ =>
        callback none ie.configurationItem))))

/-- The shape of the value the rule-handler slot hands back through its
callback, as the branch analysis at lines 156-191 of the source
distinguishes it: a string verdict, an `Array` of candidate records, or
anything else. -/
inductive Verdict where
  | strVerdict (label : String)
  | arrVerdict (records : List Evaluation)
  | otherVerdict
  deriving DecidableEq

/-- Lines 42-48 of the source: the bundled `rule_handler` delegates to
`evaluateCompliance`, so it always yields a string verdict.  The template
expects users to replace this function, which is why the handler model
below takes an arbitrary evaluator. -/
def bundledEvaluator (configurationItem : ConfigurationItem)
    (ruleParameters : RuleParameters) : Verdict :=
  Verdict.strVerdict (evaluateCompliance configurationItem ruleParameters)

/-- The error raised by the `Array` branch of `lambda_handler`.  Lines
165-181 of the source are not valid JavaScript: the inner loop header
`for (var j = 0; j < fields.length){` lacks its third clause and closing
parenthesis and `compliance_result[fields[j]` is unbalanced, so the file
fails to parse; repairing only the brackets, the branch still dies at the
strict-mode assignment to the undeclared `fields`, at the misspelled
`compliace`, and at `Evaluations.append` on a field that was never
initialized.  The branch is therefore modelled as an unconditional
throw. -/
def listBranchError : JsErr :=
  JsErr.errorObj "SyntaxError: the Array branch of lambda_handler does not parse"

/-- Lines 156-191 of the source, factored out: build the `Evaluations`
list from the verdict.  A string verdict yields exactly one record built
from the resolved item; an `Array` verdict runs the broken branch (see
`listBranchError`); any other shape yields one NOT_APPLICABLE record. -/
def normalizeVerdict (compliance : Verdict) (configurationItem : ConfigurationItem) :
    Except JsErr (List Evaluation) :=
  match compliance with
  | Verdict.strVerdict label =>
      Except.ok [{ ComplianceResourceType := configurationItem.resourceType
                   ComplianceResourceId := configurationItem.resourceId
                   ComplianceType := some label
                   OrderingTimestamp := configurationItem.configurationItemCaptureTime }]
  | Verdict.arrVerdict _ => Except.error listBranchError
  | Verdict.otherVerdict =>
      Except.ok [{ ComplianceResourceType := configurationItem.resourceType
                   ComplianceResourceId := configurationItem.resourceId
                   ComplianceType := some "NOT_APPLICABLE"
                   OrderingTimestamp := configurationItem.configurationItemCaptureTime }]

/-- Lines 196-205 of the source: hand the request to
`config.putEvaluations` and dispatch on the response — a service error is
passed to the callback as a failure, a response with a nonempty
`FailedEvaluations` list is passed as a failure carrying the stringified
response, and a response with no per-record failures is passed as a
success. -/
def putEvaluations (putResp : SvcResp PutEvaluationsResponse)
    (putEvaluationsRequest : PutEvaluationsRequest) : JsM Unit :=
  bindJs (recordPutEvaluationsCall putEvaluationsRequest) (fun _ =>
  match putResp with
  | SvcResp.err e => invokeCallback (CallbackOut.failure (JsErr.svcError e))
  | SvcResp.ok data =>
      if data.FailedEvaluations.length > 0 then
        invokeCallback (CallbackOut.failure (JsErr.dataJson data))
      else
        invokeCallback (CallbackOut.success data))

/-- Lines 136-206 of the source: the continuation `lambda_handler` passes
to `getConfigurationItem`.  The source lacks a `return` after each early
`callback(...)`, so an error invokes the callback and then falls through;
a null item invokes the callback with the scheduled-notification message
and then falls through; `isApplicable` then throws on the null item.
With a non-null item the verdict is the evaluator result when applicable
and the fixed string NOT_APPLICABLE otherwise; the evaluations are built
by `normalizeVerdict`, the result token is attached, and the request is
submitted. -/
def lambdaHandlerCont (putResp : SvcResp PutEvaluationsResponse)
    (evaluator : ConfigurationItem → RuleParameters → Verdict)
    (event : Event)
    (err : Option JsErr) (configurationItem : Option ConfigurationItem) : JsM Unit :=
  bindJs (match err with
          | some e => invokeCallback (CallbackOut.failure e)
          | none => pureJs ()) (fun _ =>
  bindJs (match configurationItem with
          | none => invokeCallback (CallbackOut.failure (JsErr.strMsg
              "RDK utility class does not yet support Scheduled Notifications."))
          | some _ => pureJs ()) (fun _ =>
  bindJs (match configurationItem with
          | none => jsThrow (JsErr.errorObj "Error: configurationItem is not defined")
          | some ci => pureJs ci) (fun ci =>
  match normalizeVerdict
      (if isApplicable ci event then evaluator ci event.ruleParameters
       else Verdict.strVerdict "NOT_APPLICABLE") ci with
  | Except.error e => jsThrow e
  | Except.ok evaluations =>
      putEvaluations putResp
        { Evaluations := evaluations, ResultToken := event.resultToken })))

/-- Lines 132-207 of the source: the exported handler (the export at line
50 is immediately overwritten by this one).  The evaluator parameter is
the rule-handler slot of the template; the two oracle parameters are the
AWS service responses. -/
def lambda_handler (historyResp : SvcResp ResourceConfigHistoryData)
    (putResp : SvcResp PutEvaluationsResponse)
    (evaluator : ConfigurationItem → RuleParameters → Verdict)
    (event : Event) : JsM Unit :=
  getConfigurationItem historyResp (some event.invokingEvent)
    (lambdaHandlerCont putResp evaluator event)

/-- Run the handler from the empty trace. -/
def runHandler (historyResp : SvcResp ResourceConfigHistoryData)
    (putResp : SvcResp PutEvaluationsResponse)
    (evaluator : ConfigurationItem → RuleParameters → Verdict)
    (event : Event) : Except JsErr Unit × Trace :=
  lambda_handler historyResp putResp evaluator event emptyTrace

/-- A sample parsed configuration payload. -/
def sampleConfiguration : Configuration := { instanceType := some "t2.micro" }

/-- A sample well-formed embedded configuration item. -/
def sampleConfigurationItem : ConfigurationItem :=
  { resourceType := some "AWS::EC2::Instance"
    resourceId := some "i-0123456789abcdef0"
    configurationItemStatus := some "OK"
    configurationItemCaptureTime := some "2017-12-01T00:00:00.000Z"
    configuration := sampleConfiguration
    awsAccountId := some "111122223333"
    ARN := none
    configurationStateMd5Hash := none
    configurationItemVersion := none
    relationships := none }

/-- A sample standard change notification event. -/
def sampleChangeEvent : Event :=
  { invokingEvent :=
      { messageType := some "ConfigurationItemChangeNotification"
        configurationItem := some sampleConfigurationItem
        configurationItemSummary := none }
    ruleParameters := { desiredInstanceType := some "t2.micro" }
    eventLeftScope := LeftScope.boolean false
    resultToken := "sample-result-token" }

/-- A sample scheduled notification event. -/
def sampleScheduledEvent : Event :=
  { invokingEvent :=
      { messageType := some "ScheduledNotification"
        configurationItem := none
        configurationItemSummary := none }
    ruleParameters := { desiredInstanceType := none }
    eventLeftScope := LeftScope.boolean false
    resultToken := "scheduled-result-token" }

/-- A sample configuration item summary. -/
def sampleSummary : ConfigurationItemSummary :=
  { resourceType := some "AWS::EC2::Instance"
    resourceId := some "i-0123456789abcdef0"
    configurationItemCaptureTime := some "2017-12-01T00:00:00.000Z" }

/-- A sample oversized change notification event. -/
def sampleOversizedEvent : Event :=
  { invokingEvent :=
      { messageType := some "OversizedConfigurationItemChangeNotification"
        configurationItem := none
        configurationItemSummary := some sampleSummary }
    ruleParameters := { desiredInstanceType := none }
    eventLeftScope := LeftScope.boolean false
    resultToken := "oversized-result-token" }

/-- A candidate report record with all four required fields present. -/
def wellFormedEvaluation : Evaluation :=
  { ComplianceResourceType := some "AWS::EC2::Volume"
    ComplianceResourceId := some "vol-049df61146c4d7901"
    ComplianceType := some "COMPLIANT"
    OrderingTimestamp := some "2017-12-01T00:00:00.000Z" }

/-- A candidate report record missing every required field. -/
def malformedEvaluation : Evaluation :=
  { ComplianceResourceType := none
    ComplianceResourceId := none
    ComplianceType := none
    OrderingTimestamp := none }

/-- A sample submission request. -/
def sampleRequest : PutEvaluationsRequest :=
  { Evaluations := [wellFormedEvaluation], ResultToken := "sample-result-token" }

/-- An empty history-service response. -/
def emptyHistory : ResourceConfigHistoryData := { configurationItems := [] }

/-- A submission response with no per-record failures. -/
def okNoFailures : SvcResp PutEvaluationsResponse :=
  SvcResp.ok { FailedEvaluations := [] }

/-- An evaluator slot that yields an `Array` verdict with one well-formed
and one malformed candidate. -/
def listEvaluatorMixed : ConfigurationItem → RuleParameters → Verdict :=
  fun _ _ => Verdict.arrVerdict [wellFormedEvaluation, malformedEvaluation]

/-- An evaluator slot that yields an `Array` verdict containing only
malformed candidates, so that zero valid records survive validation. -/
def listEvaluatorAllMalformed : ConfigurationItem → RuleParameters → Verdict :=
  fun _ _ => Verdict.arrVerdict [malformedEvaluation]

/-- An evaluator slot that yields the single label COMPLIANT. -/
def constCompliantEvaluator : ConfigurationItem → RuleParameters → Verdict :=
  fun _ _ => Verdict.strVerdict "COMPLIANT"

/-- A callback that does nothing, for exercising the resolver alone. -/
def trivialCallback : Option JsErr → Option ConfigurationItem → JsM Unit :=
  fun _ _ => pureJs ()

/-- A parsed invoking event for a standard change notification whose
embedded configuration item is absent. -/
def missingItemInvokingEvent : InvokingEvent :=
  { messageType := some "ConfigurationItemChangeNotification"
    configurationItem := none
    configurationItemSummary := none }

/-- A parsed invoking event for an oversized notification whose summary is
absent. -/
def missingSummaryInvokingEvent : InvokingEvent :=
  { messageType := some "OversizedConfigurationItemChangeNotification"
    configurationItem := none
    configurationItemSummary := none }

/-- A submission response reporting one per-record failure. -/
def sampleFailedResponse : PutEvaluationsResponse :=
  { FailedEvaluations := [wellFormedEvaluation] }

/-- Running `putEvaluations` records the request once and invokes the
callback once, with the outcome determined by the oracle response. -/
theorem putEvaluations_run (putResp : SvcResp PutEvaluationsResponse)
    (putEvaluationsRequest : PutEvaluationsRequest) (t : Trace) :
    putEvaluations putResp putEvaluationsRequest t =
      (Except.ok (),
        { callbacks := t.callbacks ++
            [match putResp with
             | SvcResp.err e => CallbackOut.failure (JsErr.svcError e)
             | SvcResp.ok data =>
                 if data.FailedEvaluations.length > 0 then
                   CallbackOut.failure (JsErr.dataJson data)
                 else
                   CallbackOut.success data],
          putEvals := t.putEvals ++ [putEvaluationsRequest] }) := by
  cases putResp with
  | err e =>
      simp [putEvaluations, bindJs, recordPutEvaluationsCall, invokeCallback]
  | ok data =>
      by_cases h : data.FailedEvaluations.length > 0 <;>
        simp [putEvaluations, bindJs, recordPutEvaluationsCall, invokeCallback, h]

/-- The continuation on a resolved item: the verdict is normalized and, if
that did not throw, submitted with the result token attached. -/
theorem lambdaHandlerCont_some (putResp : SvcResp PutEvaluationsResponse)
    (evaluator : ConfigurationItem → RuleParameters → Verdict)
    (event : Event) (ci : ConfigurationItem) (t : Trace) :
    lambdaHandlerCont putResp evaluator event none (some ci) t =
      match normalizeVerdict
          (if isApplicable ci event then evaluator ci event.ruleParameters
           else Verdict.strVerdict "NOT_APPLICABLE") ci with
      | Except.error e => (Except.error e, t)
      | Except.ok evaluations =>
          putEvaluations putResp
            { Evaluations := evaluations, ResultToken := event.resultToken } t := by
  unfold lambdaHandlerCont
  cases hn : normalizeVerdict
      (if isApplicable ci event then evaluator ci event.ruleParameters
       else Verdict.strVerdict "NOT_APPLICABLE") ci <;>
    simp [bindJs, pureJs, jsThrow, hn]

/-- The continuation on a null item with no error: the callback receives
the scheduled-notification message and the fall-through then throws inside
`isApplicable`. -/
theorem lambdaHandlerCont_none (putResp : SvcResp PutEvaluationsResponse)
    (evaluator : ConfigurationItem → RuleParameters → Verdict)
    (event : Event) (t : Trace) :
    lambdaHandlerCont putResp evaluator event none none t =
      (Except.error (JsErr.errorObj "Error: configurationItem is not defined"),
       { t with callbacks := t.callbacks ++ [CallbackOut.failure (JsErr.strMsg
           "RDK utility class does not yet support Scheduled Notifications.")] }) := by
  simp [lambdaHandlerCont, bindJs, pureJs, jsThrow, invokeCallback]

/-- The continuation on an error: the callback receives the error, then
(fall-through) the scheduled-notification message, then `isApplicable`
throws on the null item. -/
theorem lambdaHandlerCont_err (putResp : SvcResp PutEvaluationsResponse)
    (evaluator : ConfigurationItem → RuleParameters → Verdict)
    (event : Event) (e0 : JsErr) (t : Trace) :
    lambdaHandlerCont putResp evaluator event (some e0) none t =
      (Except.error (JsErr.errorObj "Error: configurationItem is not defined"),
       { t with callbacks := t.callbacks ++
           [CallbackOut.failure e0,
            CallbackOut.failure (JsErr.strMsg
              "RDK utility class does not yet support Scheduled Notifications.")] }) := by
  simp [lambdaHandlerCont, bindJs, pureJs, jsThrow, invokeCallback]

/-- An absent `messageType` aborts the resolver before any callback. -/
theorem getConfigurationItem_noMessageType (historyResp : SvcResp ResourceConfigHistoryData)
    (ie : InvokingEvent)
    (callback : Option JsErr → Option ConfigurationItem → JsM Unit) (t : Trace)
    (hmt : ie.messageType = none) :
    getConfigurationItem historyResp (some ie) callback t =
      (Except.error (JsErr.errorObj "Error: messageType is not defined"), t) := by
  simp [getConfigurationItem, checkDefined, isOverSizedChangeNotification, hmt,
    bindJs, liftEx, Except.map]

/-- The standard change path with an embedded item hands it straight to
the callback. -/
theorem getConfigurationItem_standard (historyResp : SvcResp ResourceConfigHistoryData)
    (ie : InvokingEvent)
    (callback : Option JsErr → Option ConfigurationItem → JsM Unit) (t : Trace)
    (mt : String) (ci : ConfigurationItem)
    (hmt : ie.messageType = some mt)
    (ho : mt ≠ "OversizedConfigurationItemChangeNotification")
    (hs : mt ≠ "ScheduledNotification")
    (hci : ie.configurationItem = some ci) :
    getConfigurationItem historyResp (some ie) callback t = callback none (some ci) t := by
  simp [getConfigurationItem, checkDefined, isOverSizedChangeNotification,
    isScheduledNotification, hmt, ho, hs, hci, bindJs, liftEx, Except.map]

/-- The standard change path with no embedded item aborts before any
callback, naming the missing field. -/
theorem getConfigurationItem_standard_missing (historyResp : SvcResp ResourceConfigHistoryData)
    (ie : InvokingEvent)
    (callback : Option JsErr → Option ConfigurationItem → JsM Unit) (t : Trace)
    (mt : String)
    (hmt : ie.messageType = some mt)
    (ho : mt ≠ "OversizedConfigurationItemChangeNotification")
    (hs : mt ≠ "ScheduledNotification")
    (hci : ie.configurationItem = none) :
    getConfigurationItem historyResp (some ie) callback t =
      (Except.error (JsErr.errorObj "Error: configurationItem is not defined"), t) := by
  simp [getConfigurationItem, checkDefined, isOverSizedChangeNotification,
    isScheduledNotification, hmt, ho, hs, hci, bindJs, liftEx, Except.map]

/-- The scheduled path hands a null item to the callback. -/
theorem getConfigurationItem_scheduled (historyResp : SvcResp ResourceConfigHistoryData)
    (ie : InvokingEvent)
    (callback : Option JsErr → Option ConfigurationItem → JsM Unit) (t : Trace)
    (hmt : ie.messageType = some "ScheduledNotification") :
    getConfigurationItem historyResp (some ie) callback t = callback none none t := by
  simp [getConfigurationItem, checkDefined, isOverSizedChangeNotification,
    isScheduledNotification, hmt, bindJs, liftEx, Except.map]

/-- The oversized path with no summary aborts before any callback, naming
the missing field. -/
theorem getConfigurationItem_oversized_missingSummary
    (historyResp : SvcResp ResourceConfigHistoryData) (ie : InvokingEvent)
    (callback : Option JsErr → Option ConfigurationItem → JsM Unit) (t : Trace)
    (hmt : ie.messageType = some "OversizedConfigurationItemChangeNotification")
    (hsum : ie.configurationItemSummary = none) :
    getConfigurationItem historyResp (some ie) callback t =
      (Except.error (JsErr.errorObj "Error: configurationItemSummary is not defined"), t) := by
  simp [getConfigurationItem, checkDefined, isOverSizedChangeNotification,
    hmt, hsum, bindJs, liftEx, Except.map]

/-- The oversized path on a history-service error: the callback receives
the error and, if it returns, the missing `return` makes the source
convert the null record and throw (so the run always ends in a thrown
exception on this path). -/
theorem getConfigurationItem_oversized_svcError (e : String) (ie : InvokingEvent)
    (callback : Option JsErr → Option ConfigurationItem → JsM Unit) (t : Trace)
    (summary : ConfigurationItemSummary)
    (hmt : ie.messageType = some "OversizedConfigurationItemChangeNotification")
    (hsum : ie.configurationItemSummary = some summary) :
    getConfigurationItem (SvcResp.err e) (some ie) callback t =
      bindJs (callback (some (JsErr.svcError e)) none) (fun _ =>
        jsThrow (JsErr.errorObj "TypeError: Cannot read properties of undefined")) t := by
  cases h : (callback (some (JsErr.svcError e)) none t).1 <;>
    simp [getConfigurationItem, getConfiguration, checkDefined,
      isOverSizedChangeNotification, hmt, hsum, bindJs, liftEx, Except.map, jsThrow, h]

/-- The oversized path on an empty history list: the conversion
dereferences the undefined first record and throws, with no callback. -/
theorem getConfigurationItem_oversized_emptyHistory
    (data : ResourceConfigHistoryData) (ie : InvokingEvent)
    (callback : Option JsErr → Option ConfigurationItem → JsM Unit) (t : Trace)
    (summary : ConfigurationItemSummary)
    (hmt : ie.messageType = some "OversizedConfigurationItemChangeNotification")
    (hsum : ie.configurationItemSummary = some summary)
    (hdata : data.configurationItems = []) :
    getConfigurationItem (SvcResp.ok data) (some ie) callback t =
      (Except.error (JsErr.errorObj "TypeError: Cannot read properties of undefined"), t) := by
  simp [getConfigurationItem, getConfiguration, checkDefined,
    isOverSizedChangeNotification, hmt, hsum, hdata, bindJs, liftEx, Except.map,
    pureJs, jsThrow]

/-- The oversized path on a nonempty history list: the first record is
converted and handed to the callback. -/
theorem getConfigurationItem_oversized_itemFound
    (data : ResourceConfigHistoryData) (ie : InvokingEvent)
    (callback : Option JsErr → Option ConfigurationItem → JsM Unit) (t : Trace)
    (summary : ConfigurationItemSummary)
    (api : ApiConfigurationItem) (rest : List ApiConfigurationItem)
    (hmt : ie.messageType = some "OversizedConfigurationItemChangeNotification")
    (hsum : ie.configurationItemSummary = some summary)
    (hdata : data.configurationItems = api :: rest) :
    getConfigurationItem (SvcResp.ok data) (some ie) callback t =
      callback none (some (convertApiConfiguration api)) t := by
  simp [getConfigurationItem, getConfiguration, checkDefined,
    isOverSizedChangeNotification, hmt, hsum, hdata, bindJs, liftEx, Except.map,
    pureJs]

/-- C1: for every snapshot and event, `isApplicable` returns true if and
only if the snapshot status is OK or ResourceDiscovered and the
`eventLeftScope` flag is strictly the boolean false; every other
status/left-scope combination yields false. -/
theorem C1_isApplicable_characterization (configurationItem : ConfigurationItem)
    (event : Event) :
    isApplicable configurationItem event = true ↔
      ((configurationItem.configurationItemStatus = some "OK" ∨
        configurationItem.configurationItemStatus = some "ResourceDiscovered") ∧
       event.eventLeftScope = LeftScope.boolean false) := by
  simp [isApplicable]

/-- C10: `evaluateCompliance` yields NOT_APPLICABLE exactly when the
resource type is not an EC2 instance, COMPLIANT exactly when it is an EC2
instance whose configured instance type equals the desired one, and
NON_COMPLIANT exactly in the remaining instance cases. -/
theorem C10_evaluateCompliance_characterization (configurationItem : ConfigurationItem)
    (ruleParameters : RuleParameters) :
    (evaluateCompliance configurationItem ruleParameters = "NOT_APPLICABLE" ↔
      configurationItem.resourceType ≠ some "AWS::EC2::Instance") ∧
    (evaluateCompliance configurationItem ruleParameters = "COMPLIANT" ↔
      (configurationItem.resourceType = some "AWS::EC2::Instance" ∧
       ruleParameters.desiredInstanceType = configurationItem.configuration.instanceType)) ∧
    (evaluateCompliance configurationItem ruleParameters = "NON_COMPLIANT" ↔
      (configurationItem.resourceType = some "AWS::EC2::Instance" ∧
       ruleParameters.desiredInstanceType ≠ configurationItem.configuration.instanceType)) := by
  by_cases h1 : configurationItem.resourceType = some "AWS::EC2::Instance" <;>
    by_cases h2 : ruleParameters.desiredInstanceType =
        configurationItem.configuration.instanceType <;>
      simp [evaluateCompliance, h1, h2]

/-- C4: a submission call answered by the service without a service error
records the request exactly once and does not throw; when the response
carries at least one per-record failure the callback receives a failure
carrying the stringified response, and when it carries none the callback
receives a success carrying the response. -/
theorem C4_submission_classification (data : PutEvaluationsResponse)
    (putEvaluationsRequest : PutEvaluationsRequest) (t : Trace) :
    (putEvaluations (SvcResp.ok data) putEvaluationsRequest t).1 = Except.ok () ∧
    (putEvaluations (SvcResp.ok data) putEvaluationsRequest t).2.putEvals =
      t.putEvals ++ [putEvaluationsRequest] ∧
    (data.FailedEvaluations ≠ [] →
      (putEvaluations (SvcResp.ok data) putEvaluationsRequest t).2.callbacks =
        t.callbacks ++ [CallbackOut.failure (JsErr.dataJson data)]) ∧
    (data.FailedEvaluations = [] →
      (putEvaluations (SvcResp.ok data) putEvaluationsRequest t).2.callbacks =
        t.callbacks ++ [CallbackOut.success data]) := by
  rw [putEvaluations_run]
  cases hf : data.FailedEvaluations <;> simp [hf]

/-- Witness for C4: one run with a per-record failure is reported failed
with the stringified response attached, one run with no failures is
reported successful. -/
theorem C4_submission_classification_witness :
    (putEvaluations (SvcResp.ok sampleFailedResponse) sampleRequest emptyTrace).2.callbacks =
      [CallbackOut.failure (JsErr.dataJson sampleFailedResponse)] ∧
    (putEvaluations okNoFailures sampleRequest emptyTrace).2.callbacks =
      [CallbackOut.success { FailedEvaluations := [] }] :=
  ⟨(C4_submission_classification sampleFailedResponse sampleRequest emptyTrace).2.2.1
      (by decide),
   (C4_submission_classification { FailedEvaluations := [] } sampleRequest emptyTrace).2.2.2
      rfl⟩

/-- C6: a scheduled notification makes the pipeline fail with the
descriptive unsupported-scheduled-notification message handed to the
callback, no submission request is ever made, and the fall-through then
ends in the thrown missing-item error. -/
theorem C6_scheduled_unsupported (historyResp : SvcResp ResourceConfigHistoryData)
    (putResp : SvcResp PutEvaluationsResponse)
    (evaluator : ConfigurationItem → RuleParameters → Verdict) (event : Event)
    (hmt : event.invokingEvent.messageType = some "ScheduledNotification") :
    (runHandler historyResp putResp evaluator event).2.callbacks =
      [CallbackOut.failure (JsErr.strMsg
        "RDK utility class does not yet support Scheduled Notifications.")] ∧
    (runHandler historyResp putResp evaluator event).2.putEvals = [] ∧
    (runHandler historyResp putResp evaluator event).1 =
      Except.error (JsErr.errorObj "Error: configurationItem is not defined") := by
  unfold runHandler lambda_handler
  rw [getConfigurationItem_scheduled historyResp event.invokingEvent
      (lambdaHandlerCont putResp evaluator event) emptyTrace hmt,
    lambdaHandlerCont_none]
  simp [emptyTrace]

/-- Witness for C6 at a concrete scheduled event. -/
theorem C6_scheduled_unsupported_witness :
    (runHandler (SvcResp.ok emptyHistory) okNoFailures bundledEvaluator
        sampleScheduledEvent).2.callbacks =
      [CallbackOut.failure (JsErr.strMsg
        "RDK utility class does not yet support Scheduled Notifications.")] ∧
    (runHandler (SvcResp.ok emptyHistory) okNoFailures bundledEvaluator
        sampleScheduledEvent).2.putEvals = [] ∧
    (runHandler (SvcResp.ok emptyHistory) okNoFailures bundledEvaluator
        sampleScheduledEvent).1 =
      Except.error (JsErr.errorObj "Error: configurationItem is not defined") :=
  C6_scheduled_unsupported (SvcResp.ok emptyHistory) okNoFailures bundledEvaluator
    sampleScheduledEvent rfl

/-- C7: a standard change notification without its embedded item, and an
oversized notification without its summary, abort resolution with an error
naming the missing field, with the callback never invoked and the trace
untouched — no partially populated snapshot is ever handed on. -/
theorem C7_missing_required_field (historyResp : SvcResp ResourceConfigHistoryData)
    (ie : InvokingEvent)
    (callback : Option JsErr → Option ConfigurationItem → JsM Unit) (t : Trace)
    (mt : String) (hmt : ie.messageType = some mt) :
    (mt ≠ "OversizedConfigurationItemChangeNotification" →
     mt ≠ "ScheduledNotification" →
     ie.configurationItem = none →
     getConfigurationItem historyResp (some ie) callback t =
       (Except.error (JsErr.errorObj "Error: configurationItem is not defined"), t)) ∧
    (mt = "OversizedConfigurationItemChangeNotification" →
     ie.configurationItemSummary = none →
     getConfigurationItem historyResp (some ie) callback t =
       (Except.error (JsErr.errorObj "Error: configurationItemSummary is not defined"), t)) := by
  constructor
  · intro ho hs hci
    exact getConfigurationItem_standard_missing historyResp ie callback t mt hmt ho hs hci
  · intro ho hsum
    exact getConfigurationItem_oversized_missingSummary historyResp ie callback t
      (ho ▸ hmt) hsum

/-- Witness for C7 at two concrete malformed invoking events. -/
theorem C7_missing_required_field_witness :
    getConfigurationItem (SvcResp.ok emptyHistory) (some missingItemInvokingEvent)
        trivialCallback emptyTrace =
      (Except.error (JsErr.errorObj "Error: configurationItem is not defined"), emptyTrace) ∧
    getConfigurationItem (SvcResp.ok emptyHistory) (some missingSummaryInvokingEvent)
        trivialCallback emptyTrace =
      (Except.error (JsErr.errorObj "Error: configurationItemSummary is not defined"),
        emptyTrace) :=
  ⟨(C7_missing_required_field (SvcResp.ok emptyHistory) missingItemInvokingEvent
      trivialCallback emptyTrace "ConfigurationItemChangeNotification" rfl).1
      (by decide) (by decide) rfl,
   (C7_missing_required_field (SvcResp.ok emptyHistory) missingSummaryInvokingEvent
      trivialCallback emptyTrace "OversizedConfigurationItemChangeNotification" rfl).2
      rfl rfl⟩

/-- C5: a standard change notification whose embedded snapshot is
applicable and whose evaluator yields the single label V submits exactly
one report record carrying V and the snapshot identifying fields. -/
theorem C5_single_label_roundtrip (historyResp : SvcResp ResourceConfigHistoryData)
    (putResp : SvcResp PutEvaluationsResponse)
    (evaluator : ConfigurationItem → RuleParameters → Verdict)
    (event : Event) (mt : String) (ci : ConfigurationItem) (V : String)
    (hmt : event.invokingEvent.messageType = some mt)
    (ho : mt ≠ "OversizedConfigurationItemChangeNotification")
    (hs : mt ≠ "ScheduledNotification")
    (hci : event.invokingEvent.configurationItem = some ci)
    (happ : isApplicable ci event = true)
    (hev : evaluator ci event.ruleParameters = Verdict.strVerdict V) :
    (runHandler historyResp putResp evaluator event).2.putEvals =
      [{ Evaluations := [{ ComplianceResourceType := ci.resourceType
                           ComplianceResourceId := ci.resourceId
                           ComplianceType := some V
                           OrderingTimestamp := ci.configurationItemCaptureTime }]
         ResultToken := event.resultToken }] := by
  unfold runHandler lambda_handler
  rw [getConfigurationItem_standard historyResp event.invokingEvent
      (lambdaHandlerCont putResp evaluator event) emptyTrace mt ci hmt ho hs hci,
    lambdaHandlerCont_some]
  simp [happ, hev, normalizeVerdict, putEvaluations_run, emptyTrace]

/-- Witness for C5: a concrete change event with a COMPLIANT single-label
verdict yields exactly the one expected record. -/
theorem C5_single_label_roundtrip_witness :
    (runHandler (SvcResp.ok emptyHistory) okNoFailures constCompliantEvaluator
        sampleChangeEvent).2.putEvals =
      [{ Evaluations := [{ ComplianceResourceType := some "AWS::EC2::Instance"
                           ComplianceResourceId := some "i-0123456789abcdef0"
                           ComplianceType := some "COMPLIANT"
                           OrderingTimestamp := some "2017-12-01T00:00:00.000Z" }]
         ResultToken := "sample-result-token" }] :=
  C5_single_label_roundtrip (SvcResp.ok emptyHistory) okNoFailures
    constCompliantEvaluator sampleChangeEvent "ConfigurationItemChangeNotification"
    sampleConfigurationItem "COMPLIANT" rfl (by decide) (by decide) rfl (by decide) rfl

/-- C8 counterexample: at a concrete oversized notification whose history
lookup succeeds with an empty list, the run ends in an uncaught TypeError
with an empty trace — the callback is never invoked, so no LookupError or
any other documented error is surfaced, and no submission is made. -/
theorem C8_counterexample_empty_history :
    runHandler (SvcResp.ok emptyHistory) okNoFailures bundledEvaluator
        sampleOversizedEvent =
      (Except.error (JsErr.errorObj "TypeError: Cannot read properties of undefined"),
        emptyTrace) := by
  rfl

/-- C8 amended: for every oversized notification whose history lookup
returns an empty list, the resolver throws an uncaught TypeError while
converting the absent record — rather than surfacing a documented lookup
error through the callback — and no submission call is attempted. -/
theorem C8_empty_history_typeError (data : ResourceConfigHistoryData)
    (putResp : SvcResp PutEvaluationsResponse)
    (evaluator : ConfigurationItem → RuleParameters → Verdict) (event : Event)
    (summary : ConfigurationItemSummary)
    (hmt : event.invokingEvent.messageType =
      some "OversizedConfigurationItemChangeNotification")
    (hsum : event.invokingEvent.configurationItemSummary = some summary)
    (hdata : data.configurationItems = []) :
    (runHandler (SvcResp.ok data) putResp evaluator event).1 =
      Except.error (JsErr.errorObj "TypeError: Cannot read properties of undefined") ∧
    (runHandler (SvcResp.ok data) putResp evaluator event).2.callbacks = [] ∧
    (runHandler (SvcResp.ok data) putResp evaluator event).2.putEvals = [] := by
  unfold runHandler lambda_handler
  rw [getConfigurationItem_oversized_emptyHistory data event.invokingEvent
      (lambdaHandlerCont putResp evaluator event) emptyTrace summary hmt hsum hdata]
  simp [emptyTrace]

/-- Witness for the amended C8 at a concrete oversized event. -/
theorem C8_empty_history_typeError_witness :
    (runHandler (SvcResp.ok emptyHistory) okNoFailures bundledEvaluator
        sampleOversizedEvent).1 =
      Except.error (JsErr.errorObj "TypeError: Cannot read properties of undefined") ∧
    (runHandler (SvcResp.ok emptyHistory) okNoFailures bundledEvaluator
        sampleOversizedEvent).2.callbacks = [] ∧
    (runHandler (SvcResp.ok emptyHistory) okNoFailures bundledEvaluator
        sampleOversizedEvent).2.putEvals = [] :=
  C8_empty_history_typeError emptyHistory okNoFailures bundledEvaluator
    sampleOversizedEvent sampleSummary rfl rfl rfl

/-- C2: a concrete applicable change notification whose evaluator yields a
list verdict with one well-formed and one malformed candidate makes the
run throw out of the broken `Array` branch with nothing submitted, nothing
handed to the callback, and no diagnostics — instead of submitting the one
well-formed record and logging one diagnostic without raising. -/
theorem C2_list_verdict_crashes :
    runHandler (SvcResp.ok emptyHistory) okNoFailures listEvaluatorMixed
        sampleChangeEvent =
      (Except.error listBranchError, emptyTrace) := by
  rfl

/-- C3: a concrete applicable change notification whose evaluator yields a
list verdict with only malformed candidates — the only route to zero valid
records — makes the run throw out of the broken `Array` branch.  No
submission call is made, but the failure is the branch crash: the source
contains no empty-batch check and no EmptyBatchError anywhere. -/
theorem C3_zero_valid_records_crashes :
    runHandler (SvcResp.ok emptyHistory) okNoFailures listEvaluatorAllMalformed
        sampleChangeEvent =
      (Except.error listBranchError, emptyTrace) := by
  rfl

/-- C9: on every run of the handler, every request handed to the
submission service carries the inbound `resultToken` unchanged, and at
most one submission call is made — so an invocation that reaches the
submission call attaches the token to exactly that one call. -/
theorem C9_result_token_threaded (historyResp : SvcResp ResourceConfigHistoryData)
    (putResp : SvcResp PutEvaluationsResponse)
    (evaluator : ConfigurationItem → RuleParameters → Verdict) (event : Event) :
    ((runHandler historyResp putResp evaluator event).2.putEvals.all
        (fun r => r.ResultToken == event.resultToken)) = true ∧
    (runHandler historyResp putResp evaluator event).2.putEvals.length ≤ 1 := by
  unfold runHandler lambda_handler
  cases hmt : event.invokingEvent.messageType with
  | none =>
      rw [getConfigurationItem_noMessageType historyResp event.invokingEvent
        (lambdaHandlerCont putResp evaluator event) emptyTrace hmt]
      simp [emptyTrace]
  | some mt =>
      by_cases ho : mt = "OversizedConfigurationItemChangeNotification"
      · have hmt2 : event.invokingEvent.messageType =
            some "OversizedConfigurationItemChangeNotification" := ho ▸ hmt
        cases hsum : event.invokingEvent.configurationItemSummary with
        | none =>
            rw [getConfigurationItem_oversized_missingSummary historyResp
              event.invokingEvent (lambdaHandlerCont putResp evaluator event)
              emptyTrace hmt2 hsum]
            simp [emptyTrace]
        | some summary =>
            cases historyResp with
            | err e =>
                rw [getConfigurationItem_oversized_svcError e event.invokingEvent
                  (lambdaHandlerCont putResp evaluator event) emptyTrace summary
                  hmt2 hsum]
                simp [bindJs, lambdaHandlerCont_err, emptyTrace]
            | ok data =>
                cases hdata : data.configurationItems with
                | nil =>
                    rw [getConfigurationItem_oversized_emptyHistory data
                      event.invokingEvent (lambdaHandlerCont putResp evaluator event)
                      emptyTrace summary hmt2 hsum hdata]
                    simp [emptyTrace]
                | cons api rest =>
                    rw [getConfigurationItem_oversized_itemFound data
                      event.invokingEvent (lambdaHandlerCont putResp evaluator event)
                      emptyTrace summary api rest hmt2 hsum hdata,
                      lambdaHandlerCont_some]
                    cases hn : normalizeVerdict
                        (if isApplicable (convertApiConfiguration api) event then
                          evaluator (convertApiConfiguration api) event.ruleParameters
                         else Verdict.strVerdict "NOT_APPLICABLE")
                        (convertApiConfiguration api) with
                    | error e2 => simp [hn, emptyTrace]
                    | ok evaluations => simp [hn, putEvaluations_run, emptyTrace]
      · by_cases hs : mt = "ScheduledNotification"
        · have hmt2 : event.invokingEvent.messageType =
              some "ScheduledNotification" := hs ▸ hmt
          rw [getConfigurationItem_scheduled historyResp event.invokingEvent
            (lambdaHandlerCont putResp evaluator event) emptyTrace hmt2,
            lambdaHandlerCont_none]
          simp [emptyTrace]
        · cases hci : event.invokingEvent.configurationItem with
          | none =>
              rw [getConfigurationItem_standard_missing historyResp
                event.invokingEvent (lambdaHandlerCont putResp evaluator event)
                emptyTrace mt hmt ho hs hci]
              simp [emptyTrace]
          | some ci =>
              rw [getConfigurationItem_standard historyResp event.invokingEvent
                (lambdaHandlerCont putResp evaluator event) emptyTrace mt ci
                hmt ho hs hci, lambdaHandlerCont_some]
              cases hn : normalizeVerdict
                  (if isApplicable ci event then
                    evaluator ci event.ruleParameters
                   else Verdict.strVerdict "NOT_APPLICABLE") ci with
              | error e2 => simp [hn, emptyTrace]
              | ok evaluations => simp [hn, putEvaluations_run, emptyTrace]
